import Mathlib

/-!
Shallow embedding of the room membership coordinator of `src/app/model.py`
(the gameserver repository).  The relational store (tables `user`, `room`,
`room_member`) is a `DBState`; each Python function of `model.py` becomes a
Lean function over `DBState`, with raised Python/sqlalchemy exceptions
rendered as `Except ModelError`.  SQL statements are translated literally:
an `UPDATE` without a `WHERE` clause updates every row, an `INSERT` that
omits a column leaves that field unset (`Option.none`), and a statement
whose named bind parameter the supplied parameter dictionary does not
provide fails a bind-parameter lookup before touching any row, as
sqlalchemy does.
-/

/-- LiveDifficulty from model.py: `IntEnum` with normal = 1, hard = 2. -/
inductive LiveDifficulty where
  | normal
  | hard
  deriving DecidableEq, Repr

/-- Integer value of a `LiveDifficulty`, as Python's `int(difficulty)`. -/
def LiveDifficulty.toInt : LiveDifficulty → Int
  | .normal => 1
  | .hard => 2

/-- JoinRoomResult from model.py: `IntEnum` with Ok = 1, RoomFull = 2,
Disbanded = 3, OtherError = 4.  Note: the enumeration has no
`AlreadyJoined` member. -/
inductive JoinRoomResult where
  | Ok
  | RoomFull
  | Disbanded
  | OtherError
  deriving DecidableEq, Repr

/-- WaitRoomStatus from model.py: `IntEnum` with Waiting = 1,
LiveStart = 2, Dissolution = 3. -/
inductive WaitRoomStatus where
  | Waiting
  | LiveStart
  | Dissolution
  deriving DecidableEq, Repr

/-- Integer value of a `WaitRoomStatus`, as Python's `int(status)`. -/
def WaitRoomStatus.toInt : WaitRoomStatus → Int
  | .Waiting => 1
  | .LiveStart => 2
  | .Dissolution => 3

/-- One row of the `user` table (id, name, leader_card_id, token). -/
structure UserRow where
  id : Nat
  name : String
  leader_card_id : Nat
  token : String
  deriving DecidableEq, Repr

/-- One row of the `room` table as model.py writes it:
`INSERT INTO room (live_id, room_master, joined_user_count, status)`.
`room_master` is the host player's id; `joined_user_count` is kept as an
integer because the code compares it against negative values
(`get_upto_member_room`). -/
structure RoomRow where
  id : Nat
  live_id : Nat
  room_master : Nat
  joined_user_count : Int
  status : Int
  deriving DecidableEq, Repr

/-- One row of the `room_member` table
(room_id, user_id, difficulty, in_order).  `in_order` is an `Option`
because `create_room`'s INSERT omits the column entirely, leaving it to
the column default rather than any explicit value. -/
structure RoomMemberRow where
  room_id : Nat
  user_id : Nat
  difficulty : Int
  in_order : Option Int
  deriving DecidableEq, Repr

/-- The relational store: the three tables plus the id the store will hand
to the next inserted room (`result.lastrowid`). -/
structure DBState where
  users : List UserRow
  rooms : List RoomRow
  room_members : List RoomMemberRow
  next_room_id : Nat
  deriving DecidableEq, Repr

/-- Exceptions the Python code can raise, by provenance. -/
inductive ModelError where
  /-- model.InvalidToken, raised by create_room when the token resolves to
  no user. -/
  | InvalidToken
  /-- sqlalchemy NoResultFound: `.one()` on a result with zero rows. -/
  | NoResultFound
  /-- Python AttributeError: evaluating `user.id` when `user` is `None`
  (join_room never checks the token resolution). -/
  | AttributeErrorNone
  /-- sqlalchemy StatementError: the SQL text names a bind parameter that
  the supplied parameter dictionary does not define. -/
  | BindParamError
  /-- Python TypeError: iterating an object that is not iterable. -/
  | TypeErrorNotIterable
  /-- A bare `raise Exception` in model.py. -/
  | GenericException
  deriving DecidableEq, Repr

/-- _get_user_by_token: `SELECT id, name, leader_card_id FROM user WHERE
token=:token` with `.one()`, returning None (here `none`) on
NoResultFound. -/
def get_user_by_token (s : DBState) (token : String) : Option UserRow :=
  s.users.find? (fun u => u.token == token)

/-- The row of the `room` table selected by `WHERE id=:room_id`. -/
def findRoom (s : DBState) (room_id : Nat) : Option RoomRow :=
  s.rooms.find? (fun r => r.id == room_id)

/-- create_room from model.py: resolve the token (raise InvalidToken when
it resolves to no user), insert a `room` row with joined_user_count = 1 and
status = 1 (Waiting) and room_master = the caller, then insert the
caller's `room_member` row.  The member INSERT names only
(room_id, user_id, difficulty): the `in_order` column is not assigned, so
the field is `none`.  Both inserts run inside one `engine.begin()`
transaction, so an error leaves the store unchanged (`Except.error`). -/
def create_room (s : DBState) (token : String) (live_id : Nat)
    (difficulty : LiveDifficulty) : Except ModelError (DBState × Nat) :=
  match get_user_by_token s token with
  | none => .error .InvalidToken
  | some user =>
    let room_id := s.next_room_id
    let newRoom : RoomRow :=
      ⟨room_id, live_id, user.id, 1, 1⟩
    let newMember : RoomMemberRow :=
      ⟨room_id, user.id, difficulty.toInt, none⟩
    .ok ({ s with
            rooms := s.rooms ++ [newRoom],
            room_members := s.room_members ++ [newMember],
            next_room_id := room_id + 1 }, room_id)

/-- search_room from model.py:
`SELECT id FROM room WHERE live_id=:live_id AND joined_user_count BETWEEN
1 AND 3`.  There is no condition on `status`. -/
def search_room (s : DBState) (live_id : Nat) : List Nat :=
  (s.rooms.filter (fun r =>
      r.live_id == live_id
        && decide (1 ≤ r.joined_user_count)
        && decide (r.joined_user_count ≤ 3))).map (fun r => r.id)

/-- get_room_user_count from model.py: `SELECT joined_user_count FROM room
WHERE id=:room_id` with `.one()` (NoResultFound when the room does not
exist).  The Python `if res is None` branch cannot fire for an integer
column and is not modelled. -/
def get_room_user_count (s : DBState) (room_id : Nat) :
    Except ModelError Int :=
  match findRoom s room_id with
  | none => .error .NoResultFound
  | some r => .ok r.joined_user_count

/-- get_upto_member_room from model.py: reads joined_user_count of the room
(`.one()`, NoResultFound when absent) and classifies it:
greater than 4 is OtherError, equal to 4 is RoomFull, at least 0 is Ok,
below 0 is Disbanded.  The room's `status` column is never consulted, and
the trailing `return JoinRoomResult.OtherError` of the Python function is
unreachable because the branches cover every integer. -/
def get_upto_member_room (s : DBState) (room_id : Nat) :
    Except ModelError JoinRoomResult :=
  match findRoom s room_id with
  | none => .error .NoResultFound
  | some r =>
    if r.joined_user_count > 4 then .ok .OtherError
    else if r.joined_user_count = 4 then .ok .RoomFull
    else if r.joined_user_count ≥ 0 then .ok .Ok
    else .ok .Disbanded

/-- upcount_joined_count from model.py:
`UPDATE room SET joined_user_count = joined_user_count + 1 WHERE
id=:room_id`. -/
def upcount_joined_count (s : DBState) (room_id : Nat) : DBState :=
  { s with
      rooms := s.rooms.map (fun r =>
        if r.id == room_id then
          { r with joined_user_count := r.joined_user_count + 1 }
        else r) }

/-- insert_room_member from model.py: inserts a `room_member` row whose
`difficulty` is the literal 1 (the INSERT hardcodes `"difficulty": 1`;
no difficulty reaches this function) and whose `in_order` is the passed
`user_count`, then calls upcount_joined_count and returns 1 — never
None, so the caller's None check is dead code. -/
def insert_room_member (s : DBState) (room_id : Nat) (user_id : Nat)
    (user_count : Int) : DBState × Option Nat :=
  let s1 := { s with
      room_members := s.room_members ++ [⟨room_id, user_id, 1, some user_count⟩] }
  (upcount_joined_count s1 room_id, some 1)

/-- join_room from model.py: resolves the token (without checking the
result against None), lets get_upto_member_room judge the room, and on a
judgement of Ok reads the current count and calls insert_room_member with
count + 1.  Evaluating `user.id` when the token resolved to no user
raises AttributeError; a judgement other than Ok is returned as the
result with no token check and no mutation.  A missing room surfaces as
NoResultFound from get_upto_member_room. -/
def join_room (s : DBState) (token : String) (room_id : Nat) :
    Except ModelError (DBState × JoinRoomResult) :=
  let user := get_user_by_token s token
  match get_upto_member_room s room_id with
  | .error e => .error e
  | .ok judge_join =>
    if judge_join = JoinRoomResult.Ok then
      match get_room_user_count s room_id with
      | .error e => .error e
      | .ok user_count =>
        match user with
        | none => .error .AttributeErrorNone
        | some u =>
          let res := insert_room_member s room_id u.id (user_count + 1)
          match res.2 with
          | none => .ok (res.1, JoinRoomResult.OtherError)
          | some _ => .ok (res.1, judge_join)
    else .ok (s, judge_join)

/-- Lookup of a named bind parameter in the parameter dictionary supplied
to `conn.execute`: sqlalchemy fails the statement when the name is
absent. -/
def lookupParam (params : List (String × Int)) (name : String) :
    Option Int :=
  (params.find? (fun p => p.1 == name)).map (fun p => p.2)

/-- downcount_joined_count from model.py: the statement text is the
malformed `` UPDATE room SET `joined_use_count = `joined_user_count - 1
WHERE id=:room_id `` and the call binds `{"id": room_id}` while the
statement names `:room_id`, so the bind-parameter lookup fails and the
call raises before any row changes. -/
def downcount_joined_count (s : DBState) (room_id : Nat) :
    Except ModelError DBState :=
  match lookupParam [("id", (room_id : Int))] "room_id" with
  | none => .error .BindParamError
  | some _ => .ok s

/-- get_room_user_info from model.py: `SELECT room_id, user_id,
difficulty, in_order FROM room_member WHERE room_id=:room_id` with
`fetchall()` — no ORDER BY clause.  `fetchall` never returns None, so the
raise branch is dead and the row list is returned as read. -/
def get_room_user_info (s : DBState) (room_id : Nat) :
    List RoomMemberRow :=
  s.room_members.filter (fun m => m.room_id == room_id)

/-- get_room_status from model.py: the statement `SELECT status FROM room
WHERE id=:room_id` is executed with the parameter dictionary
`{"id": room_id}`, which does not define `room_id`, so the call always
raises the bind-parameter error before querying.  The remaining branches
(`.one()` NoResultFound, decoding the status integer) are modelled for
completeness but are unreachable. -/
def get_room_status (s : DBState) (room_id : Nat) :
    Except ModelError WaitRoomStatus :=
  match lookupParam [("id", (room_id : Int))] "room_id" with
  | none => .error .BindParamError
  | some rid =>
    match s.rooms.find? (fun r => (r.id : Int) == rid) with
    | none => .error .NoResultFound
    | some r =>
      if r.status = 1 then .ok .Waiting
      else if r.status = 2 then .ok .LiveStart
      else if r.status = 3 then .ok .Dissolution
      else .error .GenericException

/-- update_room_status from model.py: the statement is
`UPDATE room SET status=:status` with no WHERE clause, so every row of the
`room` table receives the new status; the `room_id` argument is never
used by the statement. -/
def update_room_status (s : DBState) (room_id : Nat)
    (status : WaitRoomStatus) : DBState :=
  { s with rooms := s.rooms.map (fun r => { r with status := status.toInt }) }

/-- get_room_host from model.py: `SELECT room_master FROM room WHERE
id=:room_id` executed with `{"id": room_id}` — the same bind-parameter
mismatch as get_room_status, so the call always raises.  The
`one_or_none()` None branch (`raise Exception`) is modelled but
unreachable. -/
def get_room_host (s : DBState) (room_id : Nat) : Except ModelError Nat :=
  match lookupParam [("id", (room_id : Int))] "room_id" with
  | none => .error .BindParamError
  | some rid =>
    match s.rooms.find? (fun r => (r.id : Int) == rid) with
    | none => .error .GenericException
    | some r => .ok r.room_master

/-- room_wait from model.py: get_room_status, then get_room_host, then
`user_info = get_upto_member_room(room_id)` — a JoinRoomResult, not the
member list — and a `for users in user_info` loop that would raise
TypeError on that non-iterable value.  The first call already raises the
bind-parameter error, so no later step runs. -/
def room_wait (s : DBState) (room_id : Nat) :
    Except ModelError (WaitRoomStatus × List RoomMemberRow) :=
  match get_room_status s room_id with
  | .error e => .error e
  | .ok _status =>
    match get_room_host s room_id with
    | .error e => .error e
    | .ok _host =>
      match get_upto_member_room s room_id with
      | .error e => .error e
      | .ok _user_info => .error .TypeErrorNotIterable

/-- Number of rows of a `room_member` row list that belong to a room. -/
def countMembers (ms : List RoomMemberRow) (room_id : Nat) : Nat :=
  (ms.filter (fun m => m.room_id == room_id)).length

/-- Number of `room_member` rows recorded for a room. -/
def memberCount (s : DBState) (room_id : Nat) : Nat :=
  countMembers s.room_members room_id

/-- Room capacity: fixed at 4. -/
def capacity : Int := 4

/-- The capacity/consistency invariant of the spec: every room's
joined_user_count lies between 0 and the capacity and equals the number
of its room_member rows. -/
def capacityInv (s : DBState) : Prop :=
  ∀ r ∈ s.rooms, 0 ≤ r.joined_user_count ∧ r.joined_user_count ≤ capacity ∧
    r.joined_user_count = (memberCount s r.id : Int)

/-- Well-formed store: room ids and member room ids are below the next
fresh id (so a newly inserted room cannot collide with an existing row),
and the capacity invariant holds. -/
def WF (s : DBState) : Prop :=
  (∀ r ∈ s.rooms, r.id < s.next_room_id) ∧
  (∀ m ∈ s.room_members, m.room_id < s.next_room_id) ∧
  capacityInv s

/-- Registered player A. -/
def uA : UserRow := ⟨1, "A", 10, "tokA"⟩

/-- Registered player B. -/
def uB : UserRow := ⟨2, "B", 20, "tokB"⟩

/-- Registered player C. -/
def uC : UserRow := ⟨3, "C", 30, "tokC"⟩

/-- The `user` table of the concrete test stores. -/
def demoUsers : List UserRow := [uA, uB, uC]

/-- Store with three registered players and no room. -/
def baseState : DBState := ⟨demoUsers, [], [], 1⟩

/-- Store after `create_room baseState "tokA" 5 hard`: room 1, Waiting,
joined_user_count 1, host A, and A's membership (difficulty hard,
`in_order` left unset by the INSERT). -/
def createdState : DBState :=
  ⟨demoUsers, [⟨1, 5, 1, 1, 1⟩], [⟨1, 1, 2, none⟩], 2⟩

/-- Store after B additionally joins room 1 of `createdState`. -/
def joinedState : DBState :=
  ⟨demoUsers, [⟨1, 5, 1, 2, 1⟩], [⟨1, 1, 2, none⟩, ⟨1, 2, 1, some 2⟩], 2⟩

/-- Store with room 1 in status Dissolution (3) holding two members. -/
def dissolvedState : DBState :=
  ⟨demoUsers, [⟨1, 5, 1, 2, 3⟩], [⟨1, 1, 1, some 1⟩, ⟨1, 3, 1, some 2⟩], 2⟩

/-- Store after B joins the Dissolution room of `dissolvedState`. -/
def dissolvedJoined : DBState :=
  ⟨demoUsers, [⟨1, 5, 1, 3, 3⟩],
    [⟨1, 1, 1, some 1⟩, ⟨1, 3, 1, some 2⟩, ⟨1, 2, 1, some 3⟩], 2⟩

/-- Store after A joins room 1 of `createdState` a second time. -/
def dupJoined : DBState :=
  ⟨demoUsers, [⟨1, 5, 1, 2, 1⟩], [⟨1, 1, 2, none⟩, ⟨1, 1, 1, some 2⟩], 2⟩

/-- Store with room 1 full (joined_user_count 4). -/
def fullState : DBState :=
  ⟨demoUsers, [⟨1, 5, 1, 4, 1⟩],
    [⟨1, 1, 1, some 1⟩, ⟨1, 2, 1, some 2⟩, ⟨1, 3, 1, some 3⟩, ⟨1, 4, 1, some 4⟩], 2⟩

/-- Store with two Waiting rooms, ids 1 and 2. -/
def twoRoomState : DBState :=
  ⟨demoUsers, [⟨1, 5, 1, 1, 1⟩, ⟨2, 6, 2, 1, 1⟩],
    [⟨1, 1, 1, some 1⟩, ⟨2, 2, 1, some 1⟩], 3⟩

/-- Store with three rooms on live_id 5: room 1 full and Waiting, room 2
open and Waiting, room 3 open but in status Dissolution. -/
def searchState : DBState :=
  ⟨demoUsers,
    [⟨1, 5, 1, 4, 1⟩, ⟨2, 5, 2, 2, 1⟩, ⟨3, 5, 3, 2, WaitRoomStatus.Dissolution.toInt⟩],
    [⟨1, 1, 1, some 1⟩, ⟨1, 2, 1, some 2⟩, ⟨1, 3, 1, some 3⟩, ⟨1, 4, 1, some 4⟩,
     ⟨2, 5, 1, some 1⟩, ⟨2, 6, 1, some 2⟩, ⟨3, 7, 1, some 1⟩, ⟨3, 8, 1, some 2⟩], 4⟩

instance (s : DBState) : Decidable (capacityInv s) := by
  unfold capacityInv; infer_instance

instance (s : DBState) : Decidable (WF s) := by
  unfold WF; infer_instance

/-- A room returned by `findRoom` is a row of the store and carries the
looked-up id. -/
theorem findRoom_mem (s : DBState) (rid : Nat) (r : RoomRow)
    (h : findRoom s rid = some r) : r ∈ s.rooms ∧ r.id = rid := by
  unfold findRoom at h
  refine ⟨List.mem_of_find?_eq_some h, ?_⟩
  have := List.find?_some h
  simpa using this

/-- Appending one member row changes a room's member count by one exactly
when the row belongs to that room. -/
theorem countMembers_append (ms : List RoomMemberRow) (m : RoomMemberRow)
    (rid : Nat) :
    countMembers (ms ++ [m]) rid =
      countMembers ms rid + (if m.room_id = rid then 1 else 0) := by
  unfold countMembers
  simp only [List.filter_append, List.length_append]
  by_cases h : m.room_id = rid <;> simp [h]

/-- A room id above every member row's room id has member count zero. -/
theorem countMembers_all_lt (ms : List RoomMemberRow) (n : Nat)
    (h : ∀ m ∈ ms, m.room_id < n) : countMembers ms n = 0 := by
  unfold countMembers
  rw [List.length_eq_zero]
  rw [List.filter_eq_nil_iff]
  intro m hm
  simp only [beq_iff_eq]
  exact Nat.ne_of_lt (h m hm)

/-- When get_upto_member_room judges Ok, the room's count lies in 0..3. -/
theorem upto_ok_bounds (s : DBState) (rid : Nat) (r : RoomRow)
    (hfind : findRoom s rid = some r)
    (h : get_upto_member_room s rid = Except.ok JoinRoomResult.Ok) :
    0 ≤ r.joined_user_count ∧ r.joined_user_count ≤ 3 := by
  unfold get_upto_member_room at h
  rw [hfind] at h
  by_cases h1 : r.joined_user_count > 4
  · simp [h1] at h
  · by_cases h2 : r.joined_user_count = 4
    · simp [h1, h2] at h
    · by_cases h3 : r.joined_user_count ≥ 0
      · omega
      · simp [h1, h2, h3] at h

/-- Inserting one member row into a room whose count is at most 3 and then
incrementing that room's count preserves well-formedness. -/
theorem admit_WF (s : DBState) (rid : Nat) (r : RoomRow) (uid : Nat)
    (d ord : Int) (hWF : WF s) (hfind : findRoom s rid = some r)
    (h3 : r.joined_user_count ≤ 3) :
    WF (upcount_joined_count
        { s with room_members := s.room_members ++ [⟨rid, uid, d, some ord⟩] } rid) := by
  obtain ⟨hrooms, hmems, hinv⟩ := hWF
  obtain ⟨hrmem, hrid⟩ := findRoom_mem s rid r hfind
  unfold upcount_joined_count
  refine ⟨?_, ?_, ?_⟩
  · intro r' hr'
    simp only [List.mem_map] at hr'
    obtain ⟨r0, hr0, rfl⟩ := hr'
    have : (if (r0.id == rid) = true then
        { r0 with joined_user_count := r0.joined_user_count + 1 } else r0).id = r0.id := by
      split <;> rfl
    rw [this]
    exact hrooms r0 hr0
  · intro m hm
    simp only [List.mem_append, List.mem_singleton] at hm
    rcases hm with hm | rfl
    · exact hmems m hm
    · simpa [← hrid] using hrooms r hrmem
  · intro r' hr'
    simp only [List.mem_map] at hr'
    obtain ⟨r0, hr0, rfl⟩ := hr'
    have hr0inv := hinv r0 hr0
    have hrinv := hinv r hrmem
    by_cases hc : r0.id = rid
    · rw [if_pos (show (r0.id == rid) = true by simpa using hc)]
      have hcnt : r0.joined_user_count = r.joined_user_count := by
        rw [hr0inv.2.2, hrinv.2.2, hc, hrid]
      refine ⟨?_, ?_, ?_⟩
      · show (0 : Int) ≤ r0.joined_user_count + 1
        have := hr0inv.1
        omega
      · show r0.joined_user_count + 1 ≤ capacity
        have := hrinv.2.1
        unfold capacity at *
        omega
      · show r0.joined_user_count + 1 =
          (countMembers (s.room_members ++ [⟨rid, uid, d, some ord⟩]) r0.id : Int)
        rw [countMembers_append]
        rw [if_pos (show (⟨rid, uid, d, some ord⟩ : RoomMemberRow).room_id = r0.id from hc.symm)]
        have := hr0inv.2.2
        unfold memberCount at this
        push_cast
        omega
    · rw [if_neg (show ¬((r0.id == rid) = true) by simpa using hc)]
      refine ⟨hr0inv.1, hr0inv.2.1, ?_⟩
      show r0.joined_user_count =
        (countMembers (s.room_members ++ [⟨rid, uid, d, some ord⟩]) r0.id : Int)
      rw [countMembers_append]
      rw [if_neg (show ¬((⟨rid, uid, d, some ord⟩ : RoomMemberRow).room_id = r0.id) from
        fun hx => hc hx.symm)]
      have := hr0inv.2.2
      unfold memberCount at this
      omega

/-- create_room preserves well-formedness: it adds one fresh room with
count 1 together with exactly one member row for it. -/
theorem create_room_WF (s : DBState) (token : String) (live_id : Nat)
    (d : LiveDifficulty) (s' : DBState) (rid : Nat) (hWF : WF s)
    (h : create_room s token live_id d = Except.ok (s', rid)) : WF s' := by
  obtain ⟨hrooms, hmems, hinv⟩ := hWF
  unfold create_room at h
  cases hu : get_user_by_token s token with
  | none => rw [hu] at h; simp at h
  | some u =>
    rw [hu] at h
    simp only [Except.ok.injEq, Prod.mk.injEq] at h
    obtain ⟨rfl, rfl⟩ := h
    refine ⟨?_, ?_, ?_⟩
    · intro r' hr'
      simp only [List.mem_append, List.mem_singleton] at hr'
      rcases hr' with hr' | rfl
      · exact Nat.lt_succ_of_lt (hrooms r' hr')
      · exact Nat.lt_succ_self _
    · intro m hm
      simp only [List.mem_append, List.mem_singleton] at hm
      rcases hm with hm | rfl
      · exact Nat.lt_succ_of_lt (hmems m hm)
      · exact Nat.lt_succ_self _
    · intro r' hr'
      simp only [List.mem_append, List.mem_singleton] at hr'
      rcases hr' with hr' | rfl
      · have h0 := hinv r' hr'
        refine ⟨h0.1, h0.2.1, ?_⟩
        show r'.joined_user_count =
          (countMembers (s.room_members ++ [⟨s.next_room_id, u.id, d.toInt, none⟩]) r'.id : Int)
        rw [countMembers_append]
        rw [if_neg (show ¬((⟨s.next_room_id, u.id, d.toInt, none⟩ : RoomMemberRow).room_id = r'.id)
          from fun hx => Nat.ne_of_gt (hrooms r' hr') hx)]
        have := h0.2.2
        unfold memberCount at this
        omega
      · refine ⟨by norm_num, by unfold capacity; norm_num, ?_⟩
        show (1 : Int) =
          (countMembers (s.room_members ++ [⟨s.next_room_id, u.id, d.toInt, none⟩])
            s.next_room_id : Int)
        rw [countMembers_append]
        rw [countMembers_all_lt s.room_members s.next_room_id hmems]
        simp

/-- update_room_status preserves well-formedness: it rewrites statuses
only, leaving ids, counts and member rows unchanged. -/
theorem update_room_status_WF (s : DBState) (rid : Nat) (st : WaitRoomStatus)
    (hWF : WF s) : WF (update_room_status s rid st) := by
  obtain ⟨hrooms, hmems, hinv⟩ := hWF
  unfold update_room_status
  refine ⟨?_, hmems, ?_⟩
  · intro r' hr'
    simp only [List.mem_map] at hr'
    obtain ⟨r0, hr0, rfl⟩ := hr'
    exact hrooms r0 hr0
  · intro r' hr'
    simp only [List.mem_map] at hr'
    obtain ⟨r0, hr0, rfl⟩ := hr'
    exact hinv r0 hr0

/-- join_room preserves well-formedness: on a judgement other than Ok the
store is unchanged, and on Ok one member row is inserted for the judged
room together with the count increment. -/
theorem join_room_WF (s : DBState) (token : String) (rid : Nat)
    (s' : DBState) (j : JoinRoomResult) (hWF : WF s)
    (h : join_room s token rid = Except.ok (s', j)) : WF s' := by
  unfold join_room at h
  cases hup : get_upto_member_room s rid with
  | error e => rw [hup] at h; simp at h
  | ok judge =>
    rw [hup] at h
    dsimp only at h
    by_cases hj : judge = JoinRoomResult.Ok
    · subst hj
      rw [if_pos rfl] at h
      cases hcnt : get_room_user_count s rid with
      | error e => rw [hcnt] at h; simp at h
      | ok cnt =>
        rw [hcnt] at h
        cases hu : get_user_by_token s token with
        | none => rw [hu] at h; simp at h
        | some u =>
          rw [hu] at h
          unfold insert_room_member at h
          simp only [Except.ok.injEq, Prod.mk.injEq] at h
          obtain ⟨rfl, rfl⟩ := h
          cases hfind : findRoom s rid with
          | none =>
            unfold get_room_user_count at hcnt
            rw [hfind] at hcnt
            simp at hcnt
          | some r =>
            have hbounds := upto_ok_bounds s rid r hfind hup
            exact admit_WF s rid r u.id 1 (cnt + 1) ⟨hWF.1, hWF.2.1, hWF.2.2⟩ hfind hbounds.2
    · rw [if_neg hj] at h
      simp only [Except.ok.injEq, Prod.mk.injEq] at h
      obtain ⟨rfl, rfl⟩ := h
      exact hWF

/-- C1: the capacity/consistency invariant — for every room,
`0 ≤ joined_count ≤ capacity` (capacity = 4) and `joined_count` equals the
number of RoomMembership rows of that room — is preserved by every
operation of the coordinator: create_room, join_room and
update_room_status, each stated over any well-formed store.  search_room
and room_wait return no modified store in the embedding (their SQL only
reads), so they preserve every state property trivially. -/
theorem capacity_invariant_preserved (s : DBState) (h : WF s) :
    (∀ token live_id d s' rid,
        create_room s token live_id d = Except.ok (s', rid) →
          capacityInv s' ∧ WF s') ∧
    (∀ token rid s' j,
        join_room s token rid = Except.ok (s', j) →
          capacityInv s' ∧ WF s') ∧
    (∀ rid st, capacityInv (update_room_status s rid st) ∧
        WF (update_room_status s rid st)) := by
  refine ⟨?_, ?_, ?_⟩
  · intro token live_id d s' rid hc
    have := create_room_WF s token live_id d s' rid h hc
    exact ⟨this.2.2, this⟩
  · intro token rid s' j hj
    have := join_room_WF s token rid s' j h hj
    exact ⟨this.2.2, this⟩
  · intro rid st
    have := update_room_status_WF s rid st h
    exact ⟨this.2.2, this⟩

/-- Witness for C1: the invariant theorem applied at the concrete store
`createdState` (well-formedness checked by `decide`) and the concrete join
of player B, whose result is `joinedState`. -/
theorem capacity_invariant_preserved_witness :
    capacityInv joinedState ∧ WF joinedState :=
  (capacity_invariant_preserved createdState (by decide)).2.1 "tokB" 1
    joinedState JoinRoomResult.Ok (by rfl)

/-- C2: the claim fails on the code — join_room admits into a Dissolution
room.  In `dissolvedState` room 1 has status Dissolution (3) and
joined_user_count 2, yet player B's join returns Ok and inserts a
membership, growing the member count from 2 to 3: get_upto_member_room
judges from joined_user_count alone and never reads `status` (its
Disbanded branch fires only for a negative count). -/
theorem join_admits_into_dissolved_room :
    dissolvedState.rooms.map (fun r => (r.id, r.status)) =
      [(1, WaitRoomStatus.Dissolution.toInt)] ∧
    join_room dissolvedState "tokB" 1 =
      Except.ok (dissolvedJoined, JoinRoomResult.Ok) ∧
    memberCount dissolvedState 1 = 2 ∧
    memberCount dissolvedJoined 1 = 3 :=
  ⟨rfl, rfl, rfl, rfl⟩

/-- C3: the claim fails on the code — the creator's membership is not
created with join_order 1.  create_room's INSERT into `room_member` omits
the `in_order` column, so after A creates room 1 the only membership has
`in_order = none`; B's subsequent join stores `in_order = some 2`
(joined_count + 1), leaving the orders `[none, some 2]` rather than a
contiguous ascending 1..joined_count sequence. -/
theorem creator_membership_without_join_order :
    create_room baseState "tokA" 5 LiveDifficulty.hard =
      Except.ok (createdState, 1) ∧
    createdState.room_members.map RoomMemberRow.in_order = [none] ∧
    join_room createdState "tokB" 1 = Except.ok (joinedState, JoinRoomResult.Ok) ∧
    joinedState.room_members.map RoomMemberRow.in_order = [none, some 2] :=
  ⟨rfl, rfl, rfl, rfl⟩

/-- C4: the claim fails on the code — a duplicate join is not rejected.
Player A, sole member of room 1 in `createdState`, joins that room again:
the result is Ok (the JoinRoomResult enumeration has no AlreadyJoined
member at all), a second membership row for A is inserted, and the
member count grows from 1 to 2. -/
theorem duplicate_join_inserts_second_membership :
    join_room createdState "tokA" 1 = Except.ok (dupJoined, JoinRoomResult.Ok) ∧
    createdState.room_members.map RoomMemberRow.user_id = [1] ∧
    dupJoined.room_members.map RoomMemberRow.user_id = [1, 1] ∧
    memberCount createdState 1 = 1 ∧
    memberCount dupJoined 1 = 2 :=
  ⟨rfl, rfl, rfl, rfl, rfl⟩

/-- C5: the claim fails on the code — room_wait never returns a snapshot.
For every store and every room id it raises the bind-parameter error:
get_room_status executes `SELECT status FROM room WHERE id=:room_id` with
the parameter dictionary `{"id": room_id}`, which does not define
`room_id`.  (Even past that error, the code reads the member list from
get_upto_member_room — a JoinRoomResult, not memberships — and would
fail iterating it.) -/
theorem room_wait_always_bind_error (s : DBState) (room_id : Nat) :
    room_wait s room_id = Except.error ModelError.BindParamError := rfl

/-- C6 counterexample: in `searchState`, rooms 1 (full, Waiting), 2
(open, Waiting) and 3 (open, Dissolution) all have live_id 5, and
search_room returns `[2, 3]` — the Dissolution room 3 appears, so the
claim that only Waiting rooms are returned is false at this store. -/
theorem search_room_returns_dissolved_room :
    searchState.rooms.map (fun r => (r.id, r.live_id, r.joined_user_count, r.status)) =
      [(1, 5, 4, WaitRoomStatus.Waiting.toInt),
       (2, 5, 2, WaitRoomStatus.Waiting.toInt),
       (3, 5, 2, WaitRoomStatus.Dissolution.toInt)] ∧
    search_room searchState 5 = [2, 3] :=
  ⟨rfl, rfl⟩

/-- C6 as amended: search_room returns exactly the ids of rooms whose
live_id matches and whose joined_count satisfies
`0 < joined_count < capacity`, with no condition on status — full rooms
never appear, but Dissolution rooms with 1..3 members do. -/
theorem search_room_characterization (s : DBState) (live_id : Nat) (rid : Nat) :
    rid ∈ search_room s live_id ↔
      ∃ r ∈ s.rooms, r.id = rid ∧ r.live_id = live_id ∧
        0 < r.joined_user_count ∧ r.joined_user_count < capacity := by
  unfold search_room capacity
  simp only [List.mem_map, List.mem_filter, Bool.and_eq_true, beq_iff_eq,
    decide_eq_true_eq]
  constructor
  · rintro ⟨r, ⟨hr, hcond⟩, rfl⟩
    obtain ⟨⟨hlive, h1⟩, h3⟩ := hcond
    exact ⟨r, hr, rfl, hlive, by omega, by omega⟩
  · rintro ⟨r, hr, rfl, hlive, h1, h3⟩
    exact ⟨r, ⟨hr, ⟨hlive, by omega⟩, by omega⟩, rfl⟩

/-- C7: create_room of a resolvable token extends the store by exactly one
room — status Waiting, joined_user_count 1, room_master the resolved
player — and exactly one membership (the creator's, carrying the passed
difficulty), bumping the fresh id; the whole step is one transaction, so
the single `Except.ok` equation is the atomic unit.  An unresolvable
token yields `Except.error InvalidToken`, which models the rolled-back
transaction: no state is produced. -/
theorem create_room_functional (s : DBState) (token : String) (live_id : Nat)
    (d : LiveDifficulty) :
    (∀ u, get_user_by_token s token = some u →
        create_room s token live_id d =
          Except.ok ({ s with
              rooms := s.rooms ++
                [⟨s.next_room_id, live_id, u.id, 1, WaitRoomStatus.Waiting.toInt⟩],
              room_members := s.room_members ++
                [⟨s.next_room_id, u.id, d.toInt, none⟩],
              next_room_id := s.next_room_id + 1 }, s.next_room_id)) ∧
    (get_user_by_token s token = none →
        create_room s token live_id d = Except.error ModelError.InvalidToken) := by
  constructor
  · intro u hu
    unfold create_room
    rw [hu]
    rfl
  · intro hu
    unfold create_room
    rw [hu]

/-- Witness for C7: the functional theorem applied at `baseState` with
player A's token (resolving to `uA` by `rfl`) and with the unknown token
"zzz". -/
theorem create_room_functional_witness :
    create_room baseState "tokA" 5 LiveDifficulty.hard =
      Except.ok ({ baseState with
          rooms := baseState.rooms ++
            [⟨baseState.next_room_id, 5, uA.id, 1, WaitRoomStatus.Waiting.toInt⟩],
          room_members := baseState.room_members ++
            [⟨baseState.next_room_id, uA.id, LiveDifficulty.hard.toInt, none⟩],
          next_room_id := baseState.next_room_id + 1 }, baseState.next_room_id) ∧
    create_room baseState "zzz" 5 LiveDifficulty.hard =
      Except.error ModelError.InvalidToken :=
  ⟨(create_room_functional baseState "tokA" 5 LiveDifficulty.hard).1 uA rfl,
   (create_room_functional baseState "zzz" 5 LiveDifficulty.hard).2 rfl⟩

/-- C8: the claim fails on the code — join_room never checks the token
resolution.  With the unknown token "zzz": on a joinable room the result
is the AttributeError of evaluating `user.id` on None (not InvalidToken);
on a full room the judgement RoomFull is returned with no failure at all;
a nonexistent room raises sqlalchemy's NoResultFound rather than a typed
RoomNotFound; and the JoinRoomResult enumeration has exactly the four
members Ok, RoomFull, Disbanded, OtherError — no AlreadyJoined. -/
theorem join_room_error_channels :
    get_user_by_token createdState "zzz" = none ∧
    join_room createdState "zzz" 1 = Except.error ModelError.AttributeErrorNone ∧
    join_room fullState "zzz" 1 = Except.ok (fullState, JoinRoomResult.RoomFull) ∧
    join_room baseState "tokA" 9 = Except.error ModelError.NoResultFound ∧
    (∀ j : JoinRoomResult, j = JoinRoomResult.Ok ∨ j = JoinRoomResult.RoomFull ∨
        j = JoinRoomResult.Disbanded ∨ j = JoinRoomResult.OtherError) :=
  ⟨rfl, rfl, rfl, rfl, by intro j; cases j <;> simp⟩

/-- C9: the claim fails on the code — update_room_status is not scoped to
one room.  In `twoRoomState` both rooms are Waiting; updating room 1 to
LiveStart also rewrites room 2's status, because the UPDATE statement has
no WHERE clause. -/
theorem status_update_touches_every_room :
    twoRoomState.rooms.map (fun r => (r.id, r.status)) =
      [(1, WaitRoomStatus.Waiting.toInt), (2, WaitRoomStatus.Waiting.toInt)] ∧
    (update_room_status twoRoomState 1 WaitRoomStatus.LiveStart).rooms.map
        (fun r => (r.id, r.status)) =
      [(1, WaitRoomStatus.LiveStart.toInt), (2, WaitRoomStatus.LiveStart.toInt)] :=
  ⟨rfl, rfl⟩

/-- C10: the claim holds for the creator but fails for joiners — the
creator's membership stores the difficulty passed to create_room (hard),
while B's membership inserted by the successful join stores difficulty
normal (1): insert_room_member hardcodes the difficulty to 1, and
join_room takes no difficulty argument at all. -/
theorem joiner_difficulty_hardcoded :
    create_room baseState "tokA" 5 LiveDifficulty.hard =
      Except.ok (createdState, 1) ∧
    createdState.room_members.map RoomMemberRow.difficulty =
      [LiveDifficulty.hard.toInt] ∧
    join_room createdState "tokB" 1 = Except.ok (joinedState, JoinRoomResult.Ok) ∧
    joinedState.room_members.map RoomMemberRow.difficulty =
      [LiveDifficulty.hard.toInt, LiveDifficulty.normal.toInt] :=
  ⟨rfl, rfl, rfl, rfl⟩
